import Mathlib

/-!
Verification development for the attendance check-in and analytics logic of
the glass-flow-attend repository.

The embedding models the Dexie-backed document store as explicit lists and
the check-in / analytics functions as pure Lean functions:

* `recordAttendance`   — QuickCheckIn.recordAttendance (the only writer of
  attendance records in the repository)
* `handleQRScanResult` — QuickCheckIn.handleQRScanResult (qr method path)
* `checkLocation`      — QuickCheckIn.checkLocation (gps method path)
* `canCheckIn`         — StudentDashboard upcoming-class check-in flag
* `overallAttendanceRate`, `studentAttendanceRate`, `avgAttendance`
                       — the attendance aggregations of AdminAnalytics,
  StudentDashboard and the instructor dashboard / analytics pages.

Instants are modelled as natural numbers of milliseconds since the epoch;
a calendar date is the day index `now / msPerDay` (the code compares the
ISO date substring, i.e. the UTC day, of the relevant instants).
-/

/-- Milliseconds in one day. -/
def msPerDay : ℕ := 86400000

/-- The UTC calendar day of an instant, as used by
`new Date(now).toISOString().split('T')[0]` comparisons in the code. -/
def dateOf (now : ℕ) : ℕ := now / msPerDay

/-- Check-in method tag, as in the code's `'qr' | 'gps'` parameter. -/
inductive Method where
  | qr
  | gps
deriving DecidableEq, Repr

/-- Attendance status, from the AttendanceRecord interface. -/
inductive Status where
  | present
  | late
  | absent
deriving DecidableEq, Repr

/-- A latitude/longitude pair (degrees), modelled with exact rationals. -/
structure Coords where
  latitude : ℚ
  longitude : ℚ
deriving DecidableEq, Repr

/-- The geofence / network configuration of a session (attendanceZone). -/
structure Zone where
  latitude : ℚ
  longitude : ℚ
  radius : ℚ
deriving DecidableEq, Repr

/-- A class session row (the fields the check-in and analytics code reads).
`date` is a day index; `startTime`/`endTime` are milliseconds into the day. -/
structure Session where
  id : ℕ
  courseId : ℕ
  instructorId : ℕ
  date : ℕ
  startTime : ℕ
  endTime : ℕ
  checkInMethod : Method
  attendanceZone : Option Zone
  qrToken : Option String
  qrExpiry : Option ℕ
  isActive : Bool
deriving DecidableEq, Repr

/-- A course-enrollment row. -/
structure Enrollment where
  studentId : ℕ
  courseId : ℕ
deriving DecidableEq, Repr

/-- An attendance-record row, exactly the fields written by
QuickCheckIn.recordAttendance. -/
structure AttendanceRecord where
  sessionId : ℕ
  studentId : ℕ
  status : Status
  checkInTime : ℕ
  checkInMethod : Method
  location : Option Coords
  ipAddress : Option String
  isManualOverride : Bool
  createdAt : ℕ
  updatedAt : ℕ
deriving DecidableEq, Repr

/-- The slice of the document store the check-in logic touches. -/
structure DB where
  courseEnrollments : List Enrollment
  classSessions : List Session
  attendanceRecords : List AttendanceRecord
deriving DecidableEq, Repr

/-- The evidence payload (`data`) handed to recordAttendance: the qr path
passes `{qrCode}`, the gps path passes `{location}`. -/
structure EvidenceData where
  qrCode : Option String
  location : Option Coords
deriving DecidableEq, Repr

/-- Outcome of a check-in attempt: the success toast, the
"Already Checked In" toast, the thrown "No active sessions found for today"
error, or checkLocation's own "No active sessions found for your location"
error. -/
inductive CheckInOutcome where
  | success
  | alreadyCheckedIn
  | noActiveSessions
  | noActiveSessionsForLocation
deriving DecidableEq, Repr

/-- The sessions recordAttendance considers: today's sessions that are
active and belong to a course the student is enrolled in
(`db.classSessions.where('date').equals(today).and(s => s.isActive &&
enrolledCourseIds.includes(s.courseId))`). -/
def activeSessionsFor (db : DB) (userId : ℕ) (now : ℕ) : List Session :=
  let enrolledCourseIds :=
    (db.courseEnrollments.filter (fun e => e.studentId == userId)).map
      (fun e => e.courseId)
  db.classSessions.filter (fun s =>
    s.date == dateOf now && (s.isActive && enrolledCourseIds.contains s.courseId))

/-- Target-session resolution: `activeSessions.length === 0` throws;
otherwise `sessionId ? activeSessions.find(s => s.id === sessionId) ||
activeSessions[0] : activeSessions[0]`. -/
def resolveTarget (sessions : List Session) (sessionIdState : Option ℕ) :
    Option Session :=
  match sessions with
  | [] => none
  | s0 :: rest =>
    match sessionIdState with
    | some sid => some ((List.find? (fun s => s.id == sid) (s0 :: rest)).getD s0)
    | none => some s0

/-- The object literal recordAttendance hands to `db.attendanceRecords.add`:
status is always 'present', the evidence snapshot is `data.location`, and the
ip address is a placeholder constant on the qr path. -/
def mkNewRecord (targetSession : Session) (userId : ℕ) (method : Method)
    (data : EvidenceData) (now : ℕ) : AttendanceRecord :=
  { sessionId := targetSession.id
    studentId := userId
    status := Status.present
    checkInTime := now
    checkInMethod := method
    location := data.location
    ipAddress := match method with
      | Method.gps => none
      | Method.qr => some "192.168.1.1"
    isManualOverride := false
    createdAt := now
    updatedAt := now }

/-- QuickCheckIn.recordAttendance: resolve today's active enrolled sessions,
pick the target, reject if a record for (target, student) exists, otherwise
append a new AttendanceRecord with status 'present'. -/
def recordAttendance (db : DB) (userId : ℕ) (sessionIdState : Option ℕ)
    (method : Method) (data : EvidenceData) (now : ℕ) : DB × CheckInOutcome :=
  match resolveTarget (activeSessionsFor db userId now) sessionIdState with
  | none => (db, CheckInOutcome.noActiveSessions)
  | some targetSession =>
    match db.attendanceRecords.find?
        (fun r => r.sessionId == targetSession.id && r.studentId == userId) with
    | some _ => (db, CheckInOutcome.alreadyCheckedIn)
    | none =>
      ({ db with attendanceRecords :=
          db.attendanceRecords ++ [mkNewRecord targetSession userId method data now] },
        CheckInOutcome.success)

/-- QuickCheckIn.handleQRScanResult: forwards the scanned code to
recordAttendance with method 'qr' and data `{qrCode: scannedCode}`. -/
def handleQRScanResult (db : DB) (userId : ℕ) (sessionIdState : Option ℕ)
    (scannedCode : String) (now : ℕ) : DB × CheckInOutcome :=
  recordAttendance db userId sessionIdState Method.qr
    { qrCode := some scannedCode, location := none } now

/-- QuickCheckIn.checkLocation: look for active sessions dated today that
the student is enrolled in; if none, fail with its own error; otherwise
call recordAttendance with method 'gps' and the acquired coordinates.
The acquired position is never compared to the session's attendanceZone. -/
def checkLocation (db : DB) (userId : ℕ) (sessionIdState : Option ℕ)
    (userLocation : Coords) (now : ℕ) : DB × CheckInOutcome :=
  let activeSessions :=
    db.classSessions.filter (fun s => s.isActive && s.date == dateOf now)
  let enrolledCourseIds :=
    (db.courseEnrollments.filter (fun e => e.studentId == userId)).map
      (fun e => e.courseId)
  let validSessions :=
    activeSessions.filter (fun s => enrolledCourseIds.contains s.courseId)
  if validSessions.isEmpty then
    (db, CheckInOutcome.noActiveSessionsForLocation)
  else
    recordAttendance db userId sessionIdState Method.gps
      { qrCode := none, location := some userLocation } now

/-- The combined date+start instant of a session,
`new Date(session.date + 'T' + session.startTime).getTime()`. -/
def startInstant (s : Session) : ℕ := s.date * msPerDay + s.startTime

/-- The combined date+end instant of a session. -/
def endInstant (s : Session) : ℕ := s.date * msPerDay + s.endTime

/-- StudentDashboard's flag: `timeDiff = sessionDateTime - now; canCheckIn =
timeDiff <= 30*60*1000 && timeDiff >= -15*60*1000`. -/
def canCheckIn (s : Session) (now : ℕ) : Bool :=
  let timeDiff : ℤ := (startInstant s : ℤ) - (now : ℤ)
  decide (timeDiff ≤ 30 * 60 * 1000) && decide (-(15 * 60 * 1000) ≤ timeDiff)

/-- JavaScript Math.round on an exact rational: floor of q + 1/2. -/
def jsRound (q : ℚ) : ℤ := Int.floor (q + 1 / 2)

/-- AdminAnalytics.loadAttendanceStats overall rate:
`allRecords.length > 0 ? Math.round(present.length / allRecords.length * 100) : 0`. -/
def overallAttendanceRate (records : List AttendanceRecord) : ℤ :=
  let presentRecords := records.filter (fun r => r.status == Status.present)
  if records.length > 0 then
    jsRound ((presentRecords.length : ℚ) / (records.length : ℚ) * 100)
  else 0

/-- StudentDashboard attendance rate: filter the student's records, then
`records.length > 0 ? Math.round(present / records.length * 100) : 0`. -/
def studentAttendanceRate (records : List AttendanceRecord) (studentId : ℕ) : ℤ :=
  let mine := records.filter (fun r => r.studentId == studentId)
  let presentRecords := mine.filter (fun r => r.status == Status.present)
  if mine.length > 0 then
    jsRound ((presentRecords.length : ℚ) / (mine.length : ℚ) * 100)
  else 0

/-- The attendance records stored for one session. -/
def sessionRecords (db : DB) (sid : ℕ) : List AttendanceRecord :=
  db.attendanceRecords.filter (fun r => r.sessionId == sid)

/-- One step of the instructor dashboard's average-attendance loop: add the
session's present/total percentage and bump the session count when the
session has at least one record. -/
def avgStep (db : DB) (acc : ℚ × ℕ) (s : Session) : ℚ × ℕ :=
  let total := (sessionRecords db s.id).length
  let presentRecords :=
    (sessionRecords db s.id).filter (fun r => r.status == Status.present)
  if total > 0 then
    (acc.1 + (presentRecords.length : ℚ) / (total : ℚ) * 100, acc.2 + 1)
  else acc

/-- Instructor dashboard / instructor analytics average attendance:
loop over the instructor's sessions accumulating per-session rates, then
`sessionCount > 0 ? Math.round(totalAttendanceRate / sessionCount) : 0`. -/
def avgAttendance (db : DB) (instructorId : ℕ) : ℤ :=
  let sessions := db.classSessions.filter (fun s => s.instructorId == instructorId)
  let acc := sessions.foldl (avgStep db) (0, 0)
  if acc.2 > 0 then jsRound (acc.1 / (acc.2 : ℚ)) else 0

/-- Modelled from the spec: the claimed per-session aggregation formula,
rate = (present + late) / total × 100 rounded to nearest, where `total`
counts all enrolled students (those without a record in a closed session
counting as absent), and a zero denominator yields 0. No such computation
exists in the source; this definition follows the spec's words for
comparison. -/
def specClaimedRate (presentCount lateCount totalEnrolled : ℕ) : ℤ :=
  if totalEnrolled > 0 then
    jsRound ((((presentCount : ℚ) + (lateCount : ℚ)) / (totalEnrolled : ℚ)) * 100)
  else 0

/-- Modelled from the spec: great-circle distance in meters by the haversine
formula on a sphere of radius 6371000 m, with coordinates in degrees. The
source never computes any distance; this definition follows the spec's words
("spherical-earth approximation (haversine)") for comparison. -/
noncomputable def haversineDistanceM (lat1 lon1 lat2 lon2 : ℝ) : ℝ :=
  let rad : ℝ → ℝ := fun d => d * Real.pi / 180
  let dphi := (rad lat2 - rad lat1) / 2
  let dlam := (rad lon2 - rad lon1) / 2
  let a := Real.sin dphi ^ 2 +
    Real.cos (rad lat1) * Real.cos (rad lat2) * Real.sin dlam ^ 2
  2 * 6371000 * Real.arcsin (Real.sqrt a)

/-- Records grouped by a (session, student) pair. -/
def pairRecords (db : DB) (sid userId : ℕ) : List AttendanceRecord :=
  db.attendanceRecords.filter
    (fun r => r.sessionId == sid && r.studentId == userId)

/-- The geofence configuration used by the example session. -/
def exZone : Zone := { latitude := 0, longitude := 0, radius := 100 }

/-- A fixture session: 09:00-10:00 on day 0, active, qr method, with a
current token and an expiry, and a 100 m geofence at the origin. -/
def exSession : Session :=
  { id := 1, courseId := 10, instructorId := 5, date := 0,
    startTime := 32400000, endTime := 36000000,
    checkInMethod := Method.qr,
    attendanceZone := some exZone,
    qrToken := some "SESSION-TOKEN-A", qrExpiry := some 33000000,
    isActive := true }

/-- The fixture session with a different end time (same date and start). -/
def exSessionAltEnd : Session := { exSession with endTime := 37800000 }

/-- A fixture store: student 2 enrolled in course 10, one active session,
no attendance records. -/
def exDb : DB :=
  { courseEnrollments := [{ studentId := 2, courseId := 10 }],
    classSessions := [exSession],
    attendanceRecords := [] }

/-- A fixture qr evidence payload. -/
def exData : EvidenceData := { qrCode := some "X", location := none }

/-- The record the fixture check-in at 09:20 appends. -/
def exNewRec : AttendanceRecord :=
  { sessionId := 1, studentId := 2, status := Status.present,
    checkInTime := 33600000, checkInMethod := Method.qr, location := none,
    ipAddress := some "192.168.1.1", isManualOverride := false,
    createdAt := 33600000, updatedAt := 33600000 }

/-- A submitted position roughly 150 m north of the origin
(0.00135 degrees of latitude). -/
def exPoint : Coords := { latitude := 27 / 20000, longitude := 0 }

/-- A stored record with status 'present' for session 1. -/
def presentRec (studentId : ℕ) : AttendanceRecord :=
  { sessionId := 1, studentId := studentId, status := Status.present,
    checkInTime := 0, checkInMethod := Method.qr, location := none,
    ipAddress := none, isManualOverride := false, createdAt := 0,
    updatedAt := 0 }

/-- A stored record with status 'late' for session 1. -/
def lateRec (studentId : ℕ) : AttendanceRecord :=
  { presentRec studentId with status := Status.late }

/-- A record set with p 'present' records and l 'late' records. -/
def mkRecs (p l : ℕ) : List AttendanceRecord :=
  List.replicate p (presentRec 0) ++ List.replicate l (lateRec 0)

/-- The fixture session, explicitly closed. -/
def exSessionClosed : Session := { exSession with isActive := false }

/-- The spec's aggregation example: 10 enrolled students, a closed session,
6 'present' records, 2 'late' records, 2 enrolled students with no record. -/
def exDb6 : DB :=
  { courseEnrollments :=
      (List.range 10).map (fun i => { studentId := i + 1, courseId := 10 }),
    classSessions := [exSessionClosed],
    attendanceRecords :=
      (List.range 6).map (fun i => presentRec (i + 1)) ++
      (List.range 2).map (fun i => lateRec (i + 7)) }

/-- A fixture store whose record list is nonempty (student 2 has a record
for session 1, taught by instructor 5) while student 3 has no records and
instructor 7's only session (id 2) has no records. -/
def exDb9 : DB :=
  { courseEnrollments := [{ studentId := 2, courseId := 10 }],
    classSessions := [exSession, { exSession with id := 2, instructorId := 7 }],
    attendanceRecords := [presentRec 2] }

/-- The check-in outcome and the store update only read the `location` field
of the evidence payload, so payloads with equal locations give equal runs. -/
theorem recordAttendance_congr_location (db : DB) (userId : ℕ)
    (sid : Option ℕ) (m : Method) (d d' : EvidenceData) (now : ℕ)
    (h : d.location = d'.location) :
    recordAttendance db userId sid m d now =
      recordAttendance db userId sid m d' now := by
  unfold recordAttendance
  cases hr : resolveTarget (activeSessionsFor db userId now) sid with
  | none => rfl
  | some t =>
    cases hf : db.attendanceRecords.find?
        (fun r => r.sessionId == t.id && r.studentId == userId) with
    | some r => simp only [hf]
    | none => simp only [hf, mkNewRecord, h]

/-- The check-in outcome and the resulting record count are independent of
the evidence payload altogether. -/
theorem recordAttendance_outcome_indep (db : DB) (userId : ℕ)
    (sid : Option ℕ) (m : Method) (d d' : EvidenceData) (now : ℕ) :
    (recordAttendance db userId sid m d now).2 =
      (recordAttendance db userId sid m d' now).2 ∧
    (recordAttendance db userId sid m d now).1.attendanceRecords.length =
      (recordAttendance db userId sid m d' now).1.attendanceRecords.length := by
  unfold recordAttendance
  cases hr : resolveTarget (activeSessionsFor db userId now) sid with
  | none => exact ⟨rfl, rfl⟩
  | some t =>
    cases hf : db.attendanceRecords.find?
        (fun r => r.sessionId == t.id && r.studentId == userId) with
    | some r => simp [hf]
    | none => simp [hf]

/-- Folding a function that fixes the accumulator on every member of the
list leaves the accumulator unchanged. -/
theorem foldl_fixed_of_mem {α β : Type} (f : β → α → β) :
    ∀ (l : List α), (∀ a ∈ l, ∀ c, f c a = c) → ∀ b : β, l.foldl f b = b := by
  intro l
  induction l with
  | nil => intro _ b; rfl
  | cons a t ih =>
    intro hf b
    rw [List.foldl_cons, hf a (List.mem_cons_self a t)]
    exact ih (fun x hx c => hf x (List.mem_cons_of_mem a hx) c) b

/-- Equation: no resolvable session means the store is untouched and the
outcome is the thrown "No active sessions found for today" error. -/
theorem recordAttendance_none_eq (db : DB) (userId : ℕ) (sid : Option ℕ)
    (m : Method) (d : EvidenceData) (now : ℕ)
    (hr : resolveTarget (activeSessionsFor db userId now) sid = none) :
    recordAttendance db userId sid m d now = (db, CheckInOutcome.noActiveSessions) := by
  unfold recordAttendance
  simp only [hr]

/-- Equation: an existing record for the resolved (session, student) pair
means the store is untouched and the outcome is "Already Checked In". -/
theorem recordAttendance_found_eq (db : DB) (userId : ℕ) (sid : Option ℕ)
    (m : Method) (d : EvidenceData) (now : ℕ) (t : Session) (r : AttendanceRecord)
    (hr : resolveTarget (activeSessionsFor db userId now) sid = some t)
    (hf : db.attendanceRecords.find?
        (fun r => r.sessionId == t.id && r.studentId == userId) = some r) :
    recordAttendance db userId sid m d now = (db, CheckInOutcome.alreadyCheckedIn) := by
  unfold recordAttendance
  simp only [hr, hf]

/-- Equation: with a resolved session and no existing record, the new record
is appended and the outcome is success. -/
theorem recordAttendance_success_eq (db : DB) (userId : ℕ) (sid : Option ℕ)
    (m : Method) (d : EvidenceData) (now : ℕ) (t : Session)
    (hr : resolveTarget (activeSessionsFor db userId now) sid = some t)
    (hf : db.attendanceRecords.find?
        (fun r => r.sessionId == t.id && r.studentId == userId) = none) :
    recordAttendance db userId sid m d now =
      ({ db with attendanceRecords :=
          db.attendanceRecords ++ [mkNewRecord t userId m d now] },
        CheckInOutcome.success) := by
  unfold recordAttendance
  simp only [hr, hf]

/-- A successful outcome pins down the branch recordAttendance took. -/
theorem recordAttendance_success_shape (db : DB) (userId : ℕ) (sid : Option ℕ)
    (m : Method) (d : EvidenceData) (now : ℕ)
    (hs : (recordAttendance db userId sid m d now).2 = CheckInOutcome.success) :
    ∃ t, resolveTarget (activeSessionsFor db userId now) sid = some t ∧
      db.attendanceRecords.find?
        (fun r => r.sessionId == t.id && r.studentId == userId) = none := by
  cases hr : resolveTarget (activeSessionsFor db userId now) sid with
  | none => rw [recordAttendance_none_eq db userId sid m d now hr] at hs; exact absurd hs (by simp)
  | some t =>
    cases hf : db.attendanceRecords.find?
        (fun r => r.sessionId == t.id && r.studentId == userId) with
    | some r =>
      rw [recordAttendance_found_eq db userId sid m d now t r hr hf] at hs
      exact absurd hs (by simp)
    | none => exact ⟨t, rfl, hf⟩

/-- C1: a second identical check-in call after a successful one writes
nothing, changes nothing, and reports the already-recorded outcome; and the
check-in path preserves the at-most-one-record-per-(session, student)
invariant. -/
theorem recordAttendance_idempotent_unique (db : DB) (userId : ℕ)
    (sid : Option ℕ) (m : Method) (d : EvidenceData) (now : ℕ) :
    ((recordAttendance db userId sid m d now).2 = CheckInOutcome.success →
      recordAttendance (recordAttendance db userId sid m d now).1 userId sid m d now =
        ((recordAttendance db userId sid m d now).1, CheckInOutcome.alreadyCheckedIn)) ∧
    ((∀ s u, (pairRecords db s u).length ≤ 1) →
      ∀ s u, (pairRecords (recordAttendance db userId sid m d now).1 s u).length ≤ 1) := by
  constructor
  · intro hs
    obtain ⟨t, hr, hf⟩ := recordAttendance_success_shape db userId sid m d now hs
    have h1 := recordAttendance_success_eq db userId sid m d now t hr hf
    rw [h1]
    apply recordAttendance_found_eq _ _ _ _ _ _ t (mkNewRecord t userId m d now)
    · exact hr
    · show List.find? _ (db.attendanceRecords ++ [mkNewRecord t userId m d now]) = _
      rw [List.find?_append, hf]
      simp [mkNewRecord]
  · intro hb s u
    cases hr : resolveTarget (activeSessionsFor db userId now) sid with
    | none =>
      rw [recordAttendance_none_eq db userId sid m d now hr]
      exact hb s u
    | some t =>
      cases hf : db.attendanceRecords.find?
          (fun r => r.sessionId == t.id && r.studentId == userId) with
      | some r =>
        rw [recordAttendance_found_eq db userId sid m d now t r hr hf]
        exact hb s u
      | none =>
        rw [recordAttendance_success_eq db userId sid m d now t hr hf]
        show (List.filter _ (db.attendanceRecords ++ [mkNewRecord t userId m d now])).length ≤ 1
        rw [List.filter_append]
        by_cases hts : t.id = s ∧ userId = u
        · obtain ⟨hts1, hts2⟩ := hts
          subst hts1; subst hts2
          have hnil : db.attendanceRecords.filter
              (fun r => r.sessionId == t.id && r.studentId == userId) = [] := by
            rw [List.filter_eq_nil_iff]
            exact fun a ha => List.find?_eq_none.mp hf a ha
          have : pairRecords db t.id userId = [] := hnil
          rw [show (List.filter (fun r => r.sessionId == t.id && r.studentId == userId)
              db.attendanceRecords) = [] from hnil]
          simp [mkNewRecord]
        · have hpred : ((mkNewRecord t userId m d now).sessionId == s &&
              (mkNewRecord t userId m d now).studentId == u) = false := by
            simp only [mkNewRecord]
            simp only [Bool.and_eq_false_iff, beq_eq_false_iff_ne]
            by_cases h1 : t.id = s
            · exact Or.inr (fun h2 => hts ⟨h1, h2⟩)
            · exact Or.inl h1
          rw [show List.filter (fun r => r.sessionId == s && r.studentId == u)
              [mkNewRecord t userId m d now] = [] by simp [List.filter, hpred]]
          rw [List.append_nil]
          exact hb s u

/-- Witness for C1 at the fixture store: the first 09:20 check-in succeeds,
the second reports already-checked-in and leaves the store unchanged, and
the pair (session 1, student 2) has at most one record. -/
theorem recordAttendance_idempotent_unique_witness :
    recordAttendance (recordAttendance exDb 2 (some 1) Method.qr exData 33600000).1
        2 (some 1) Method.qr exData 33600000 =
      ((recordAttendance exDb 2 (some 1) Method.qr exData 33600000).1,
        CheckInOutcome.alreadyCheckedIn) ∧
    (pairRecords (recordAttendance exDb 2 (some 1) Method.qr exData 33600000).1 1 2).length ≤ 1 :=
  ⟨(recordAttendance_idempotent_unique exDb 2 (some 1) Method.qr exData 33600000).1 (by decide),
   (recordAttendance_idempotent_unique exDb 2 (some 1) Method.qr exData 33600000).2
     (fun s u => by simp [pairRecords, exDb]) 1 2⟩

/-- On every non-success outcome recordAttendance returns the store as-is. -/
theorem recordAttendance_fail_unchanged (db : DB) (userId : ℕ)
    (sid : Option ℕ) (m : Method) (d : EvidenceData) (now : ℕ)
    (h : (recordAttendance db userId sid m d now).2 ≠ CheckInOutcome.success) :
    (recordAttendance db userId sid m d now).1 = db := by
  cases hr : resolveTarget (activeSessionsFor db userId now) sid with
  | none => rw [recordAttendance_none_eq db userId sid m d now hr]
  | some t =>
    cases hf : db.attendanceRecords.find?
        (fun r => r.sessionId == t.id && r.studentId == userId) with
    | some r => rw [recordAttendance_found_eq db userId sid m d now t r hr hf]
    | none =>
      rw [recordAttendance_success_eq db userId sid m d now t hr hf] at h
      exact absurd rfl h

/-- C8: every failing check-in attempt, through recordAttendance directly or
through the checkLocation path, leaves the set of persisted attendance
records exactly as it was. -/
theorem checkin_failure_writes_nothing (db : DB) (userId : ℕ)
    (sid : Option ℕ) (m : Method) (d : EvidenceData) (p : Coords) (now : ℕ) :
    ((recordAttendance db userId sid m d now).2 ≠ CheckInOutcome.success →
      (recordAttendance db userId sid m d now).1 = db) ∧
    ((checkLocation db userId sid p now).2 ≠ CheckInOutcome.success →
      (checkLocation db userId sid p now).1 = db) := by
  constructor
  · exact recordAttendance_fail_unchanged db userId sid m d now
  · intro h
    unfold checkLocation at h ⊢
    by_cases he : ((db.classSessions.filter
        (fun s => s.isActive && s.date == dateOf now)).filter (fun s =>
          ((db.courseEnrollments.filter (fun e => e.studentId == userId)).map
            (fun e => e.courseId)).contains s.courseId)).isEmpty
    · simp only [he, if_true]
    · simp only [he, if_false] at h ⊢
      exact recordAttendance_fail_unchanged db userId sid Method.gps
        { qrCode := none, location := some p } now h

/-- Witness for C8: student 3 is not enrolled, so the attempt fails and the
fixture store is returned unchanged on both paths. -/
theorem checkin_failure_writes_nothing_witness :
    (recordAttendance exDb 3 (some 1) Method.qr exData 33600000).1 = exDb ∧
    (checkLocation exDb 3 (some 1) exPoint 33600000).1 = exDb :=
  ⟨(checkin_failure_writes_nothing exDb 3 (some 1) Method.qr exData exPoint 33600000).1
      (by decide),
   (checkin_failure_writes_nothing exDb 3 (some 1) Method.qr exData exPoint 33600000).2
      (by decide)⟩

/-- Counterexample to C2: at 11:00, a full hour after the fixture session's
10:00 end, the attempt still succeeds and a record is written, because the
check-in path never consults the session's start or end time. -/
theorem afterEnd_checkin_succeeds :
    endInstant exSession < 39600000 ∧
    (recordAttendance exDb 2 (some 1) Method.qr exData 39600000).2 =
      CheckInOutcome.success ∧
    (recordAttendance exDb 2 (some 1) Method.qr exData 39600000).1.attendanceRecords.length =
      exDb.attendanceRecords.length + 1 := by decide

/-- C2 amended: the check-in path applies no time-of-day window at all; the
outcome and the number of stored records depend on the attempt instant only
through its calendar date (which selects today's active sessions), so
attempts before the window opening or after the session end are not
rejected. -/
theorem checkin_ignores_time_of_day (db : DB) (userId : ℕ) (sid : Option ℕ)
    (m : Method) (d : EvidenceData) (now now' : ℕ)
    (h : dateOf now = dateOf now') :
    (recordAttendance db userId sid m d now).2 =
      (recordAttendance db userId sid m d now').2 ∧
    (recordAttendance db userId sid m d now).1.attendanceRecords.length =
      (recordAttendance db userId sid m d now').1.attendanceRecords.length := by
  have hact : activeSessionsFor db userId now = activeSessionsFor db userId now' := by
    unfold activeSessionsFor
    rw [h]
  unfold recordAttendance
  rw [hact]
  cases hr : resolveTarget (activeSessionsFor db userId now') sid with
  | none => exact ⟨rfl, rfl⟩
  | some t =>
    cases hf : db.attendanceRecords.find?
        (fun r => r.sessionId == t.id && r.studentId == userId) with
    | some r => simp [hf]
    | none => simp [hf]

/-- Witness for the amended C2: an attempt at 09:20 and one at 11:00 (after
the session end) on the same day get the same outcome and record count. -/
theorem checkin_ignores_time_of_day_witness :
    (recordAttendance exDb 2 (some 1) Method.qr exData 33600000).2 =
      (recordAttendance exDb 2 (some 1) Method.qr exData 39600000).2 ∧
    (recordAttendance exDb 2 (some 1) Method.qr exData 33600000).1.attendanceRecords.length =
      (recordAttendance exDb 2 (some 1) Method.qr exData 39600000).1.attendanceRecords.length :=
  checkin_ignores_time_of_day exDb 2 (some 1) Method.qr exData 33600000 39600000 (by decide)

/-- Counterexample to C3: with the fixture session starting at 09:00 and a
15-minute late threshold, an attempt at 09:20 lands strictly between
start + threshold and the end, yet the persisted record's status is
'present', not 'late'. -/
theorem late_attempt_recorded_present :
    startInstant exSession + 15 * 60000 < 33600000 ∧
    33600000 < endInstant exSession ∧
    ((recordAttendance exDb 2 (some 1) Method.qr exData 33600000).1.attendanceRecords.map
      (fun r => r.status)) = [Status.present] ∧
    Status.present ≠ Status.late := by decide

/-- C3 amended: the check-in path never derives the status from the attempt
time; every record it writes carries status 'present', whatever the instant
of the attempt. -/
theorem checkin_status_always_present (db : DB) (userId : ℕ) (sid : Option ℕ)
    (m : Method) (d : EvidenceData) (now : ℕ) (rec : AttendanceRecord)
    (h : rec ∈ (recordAttendance db userId sid m d now).1.attendanceRecords) :
    rec ∈ db.attendanceRecords ∨ rec.status = Status.present := by
  cases hr : resolveTarget (activeSessionsFor db userId now) sid with
  | none =>
    rw [recordAttendance_none_eq db userId sid m d now hr] at h
    exact Or.inl h
  | some t =>
    cases hf : db.attendanceRecords.find?
        (fun r => r.sessionId == t.id && r.studentId == userId) with
    | some r =>
      rw [recordAttendance_found_eq db userId sid m d now t r hr hf] at h
      exact Or.inl h
    | none =>
      rw [recordAttendance_success_eq db userId sid m d now t hr hf] at h
      rcases List.mem_append.mp h with hm | hm
      · exact Or.inl hm
      · right
        rw [List.mem_singleton.mp hm]
        rfl

/-- Witness for the amended C3: the record the 09:20 fixture check-in stores
is either pre-existing (it is not; the store started empty) or has status
'present'. -/
theorem checkin_status_always_present_witness :
    exNewRec ∈ exDb.attendanceRecords ∨ exNewRec.status = Status.present :=
  checkin_status_always_present exDb 2 (some 1) Method.qr exData 33600000 exNewRec
    (by decide)

/-- Counterexample to C4: the scanned code "WRONG-TOKEN" differs from the
session's stored token, and at 09:10:21 the token's expiry (09:10:00) has
passed, yet the qr check-in succeeds and writes a record — no TokenMismatch
or TokenExpired rejection exists in the code. -/
theorem stale_mismatched_token_accepted :
    exSession.qrToken = some "SESSION-TOKEN-A" ∧
    exSession.qrExpiry = some 33000000 ∧
    (33000000 : ℕ) < 33021000 ∧
    ("WRONG-TOKEN" : String) ≠ "SESSION-TOKEN-A" ∧
    (handleQRScanResult exDb 2 (some 1) "WRONG-TOKEN" 33021000).2 =
      CheckInOutcome.success ∧
    (handleQRScanResult exDb 2 (some 1) "WRONG-TOKEN" 33021000).1.attendanceRecords.length =
      1 := by decide

/-- C4 amended: the qr check-in path never reads the submitted token, the
session's current token value, or its expiry: runs with any two scanned
codes are identical in outcome and in the store they produce. -/
theorem qr_checkin_ignores_token (db : DB) (userId : ℕ) (sid : Option ℕ)
    (now : ℕ) (tok tok' : String) :
    handleQRScanResult db userId sid tok now =
      handleQRScanResult db userId sid tok' now :=
  recordAttendance_congr_location db userId sid Method.qr
    { qrCode := some tok, location := none }
    { qrCode := some tok', location := none } now rfl

/-- The fixture point is farther from the fixture geofence center than the
configured radius: 0.00135 degrees of latitude is about 150 m of
great-circle distance, beyond the 100 m radius. -/
theorem exPoint_outside_exZone :
    haversineDistanceM (exZone.latitude : ℝ) (exZone.longitude : ℝ)
      (exPoint.latitude : ℝ) (exPoint.longitude : ℝ) > (exZone.radius : ℝ) := by
  have hπ3 := Real.pi_gt_three
  have hπpos := Real.pi_pos
  have hx0 : (0:ℝ) ≤ 27/20000 * Real.pi / 180 / 2 := by positivity
  have hx2 : 27/20000 * Real.pi / 180 / 2 ≤ Real.pi / 2 := by nlinarith
  have hxpi : 27/20000 * Real.pi / 180 / 2 ≤ Real.pi := by nlinarith
  simp only [exZone, exPoint]
  push_cast
  simp only [haversineDistanceM]
  rw [show ((0:ℝ) * Real.pi / 180 - 0 * Real.pi / 180) / 2 = 0 by ring]
  rw [Real.sin_zero]
  rw [show ((27:ℝ)/20000 * Real.pi / 180 - 0 * Real.pi / 180) / 2
      = 27/20000 * Real.pi / 180 / 2 by ring]
  rw [show ((0:ℝ)) ^ 2 = 0 by norm_num, mul_zero, add_zero]
  rw [Real.sqrt_sq (Real.sin_nonneg_of_nonneg_of_le_pi hx0 hxpi)]
  rw [Real.arcsin_sin (by linarith) hx2]
  nlinarith

/-- Counterexample to C5: the submitted position lies (by the haversine
formula) beyond the session's configured 100 m radius, yet the gps check-in
succeeds and writes a record — the code never computes any distance. -/
theorem outside_geofence_accepted :
    exSession.attendanceZone = some exZone ∧
    haversineDistanceM (exZone.latitude : ℝ) (exZone.longitude : ℝ)
      (exPoint.latitude : ℝ) (exPoint.longitude : ℝ) > (exZone.radius : ℝ) ∧
    (checkLocation exDb 2 none exPoint 34200000).2 = CheckInOutcome.success ∧
    (checkLocation exDb 2 none exPoint 34200000).1.attendanceRecords.length = 1 :=
  ⟨by decide, exPoint_outside_exZone, by decide, by decide⟩

/-- C5 amended: the gps check-in path never compares the submitted position
to the session's configured center or radius: any two positions give the
same outcome and the same number of stored records (only the stored evidence
snapshot differs). -/
theorem gps_checkin_ignores_position (db : DB) (userId : ℕ) (sid : Option ℕ)
    (now : ℕ) (p q : Coords) :
    (checkLocation db userId sid p now).2 = (checkLocation db userId sid q now).2 ∧
    (checkLocation db userId sid p now).1.attendanceRecords.length =
      (checkLocation db userId sid q now).1.attendanceRecords.length := by
  unfold checkLocation
  by_cases he : ((db.classSessions.filter
      (fun s => s.isActive && s.date == dateOf now)).filter (fun s =>
        ((db.courseEnrollments.filter (fun e => e.studentId == userId)).map
          (fun e => e.courseId)).contains s.courseId)).isEmpty
  · rw [if_pos he, if_pos he]
    exact ⟨rfl, rfl⟩
  · rw [if_neg he, if_neg he]
    exact recordAttendance_outcome_indep db userId sid Method.gps
      { qrCode := none, location := some p }
      { qrCode := none, location := some q } now

/-- Characterization of jsRound by the usual floor bracketing. -/
theorem jsRound_eq (q : ℚ) (z : ℤ) (h1 : (z : ℚ) ≤ q + 1 / 2)
    (h2 : q + 1 / 2 < (z : ℚ) + 1) : jsRound q = z :=
  Int.floor_eq_iff.mpr ⟨h1, h2⟩

/-- The overall attendance rate of the spec's example record set is 75. -/
theorem overallAttendanceRate_exDb6 :
    overallAttendanceRate exDb6.attendanceRecords = 75 := by
  have hfilter : (exDb6.attendanceRecords.filter
      (fun r => r.status == Status.present)).length = 6 := by decide
  have hlen : exDb6.attendanceRecords.length = 8 := by decide
  simp only [overallAttendanceRate]
  rw [hfilter, hlen, if_pos (by norm_num)]
  apply jsRound_eq <;> norm_num

/-- The instructor-average attendance over the spec's example store is 75:
the single session contributes 6/8 × 100 and the average over one session
rounds to 75. -/
theorem avgAttendance_exDb6 : avgAttendance exDb6 5 = 75 := by
  have hsess : exDb6.classSessions.filter (fun s => s.instructorId == 5) =
      [exSessionClosed] := by decide
  have htot : (sessionRecords exDb6 exSessionClosed.id).length = 8 := by decide
  have hpres : ((sessionRecords exDb6 exSessionClosed.id).filter
      (fun r => r.status == Status.present)).length = 6 := by decide
  simp only [avgAttendance]
  rw [hsess, List.foldl_cons, List.foldl_nil]
  simp only [avgStep]
  rw [htot, hpres, if_pos (by norm_num)]
  rw [if_pos (by norm_num)]
  apply jsRound_eq <;> norm_num

/-- Counterexample to C6: in the spec's own scenario (10 enrolled, closed
session, 6 'present' records, 2 'late' records, 2 students with no record)
the code computes round(6/8×100) = 75, not the claimed
round((6+2)/10×100) = 80: 'late' records are excluded from the numerator
and enrolled students without records are excluded from the denominator. -/
theorem session_rate_ignores_late_and_absent :
    (exDb6.classSessions.map (fun s => s.isActive)) = [false] ∧
    exDb6.courseEnrollments.length = 10 ∧
    (exDb6.attendanceRecords.filter (fun r => r.status == Status.present)).length = 6 ∧
    (exDb6.attendanceRecords.filter (fun r => r.status == Status.late)).length = 2 ∧
    overallAttendanceRate exDb6.attendanceRecords = 75 ∧
    avgAttendance exDb6 5 = 75 ∧
    specClaimedRate 6 2 10 = 80 ∧
    (75 : ℤ) ≠ 80 := by
  refine ⟨by decide, by decide, by decide, by decide,
    overallAttendanceRate_exDb6, avgAttendance_exDb6, ?_, by decide⟩
  simp only [specClaimedRate]
  rw [if_pos (by norm_num)]
  apply jsRound_eq <;> norm_num

/-- C6 amended: the computed rate is round(present count / record count
× 100): 'late' records enter the denominator but not the numerator, and
enrolled students with no record are not counted at all; on the spec's
example the rate is therefore 75, not 80. -/
theorem overall_rate_formula (p l : ℕ) (h : 0 < p + l) :
    overallAttendanceRate (mkRecs p l) =
      jsRound ((p : ℚ) * 100 / ((p : ℚ) + (l : ℚ))) ∧
    overallAttendanceRate (mkRecs 6 2) = 75 := by
  constructor
  · have hlen : (mkRecs p l).length = p + l := by
      simp [mkRecs]
    have hpres : ((mkRecs p l).filter (fun r => r.status == Status.present)).length = p := by
      simp [mkRecs, List.filter_append, List.filter_replicate, presentRec, lateRec]
    simp only [overallAttendanceRate]
    rw [hlen, hpres, if_pos h]
    congr 1
    push_cast
    rw [div_mul_eq_mul_div]
  · have hfilter : ((mkRecs 6 2).filter
        (fun r => r.status == Status.present)).length = 6 := by decide
    have hlen : (mkRecs 6 2).length = 8 := by decide
    simp only [overallAttendanceRate]
    rw [hfilter, hlen, if_pos (by norm_num)]
    apply jsRound_eq <;> norm_num

/-- Witness for the amended C6 at 6 present and 2 late records. -/
theorem overall_rate_formula_witness :
    overallAttendanceRate (mkRecs 6 2) =
      jsRound (((6 : ℕ) : ℚ) * 100 / (((6 : ℕ) : ℚ) + ((2 : ℕ) : ℚ))) ∧
    overallAttendanceRate (mkRecs 6 2) = 75 :=
  overall_rate_formula 6 2 (by decide)

/-- Counterexample to C7: the store's only session has id 1, the attempt
names session 99, and instead of failing with a not-found error the attempt
succeeds and the written record is attached to session 1. -/
theorem missing_session_silently_redirected :
    (exDb.classSessions.map (fun s => s.id)) = [1] ∧
    (1 : ℕ) ≠ 99 ∧
    (recordAttendance exDb 2 (some 99) Method.qr exData 33600000).2 =
      CheckInOutcome.success ∧
    ((recordAttendance exDb 2 (some 99) Method.qr exData 33600000).1.attendanceRecords.map
      (fun r => r.sessionId)) = [1] := by decide

/-- C7 amended: when no active enrolled session exists for the attempt's
date the attempt fails (with the generic no-active-sessions error, not a
SessionNotFound error) and nothing is written; but when active sessions
exist and the named id is not among them, resolution silently falls back to
the first active session instead of failing. -/
theorem unresolved_session_falls_back (db : DB) (userId : ℕ) (sid : Option ℕ)
    (m : Method) (d : EvidenceData) (now : ℕ) (s0 : Session)
    (rest : List Session) (target : ℕ) :
    (activeSessionsFor db userId now = [] →
      recordAttendance db userId sid m d now = (db, CheckInOutcome.noActiveSessions)) ∧
    ((∀ s ∈ s0 :: rest, s.id ≠ target) →
      resolveTarget (s0 :: rest) (some target) = some s0) := by
  constructor
  · intro h
    apply recordAttendance_none_eq
    rw [h]
    rfl
  · intro h
    have hfind : (s0 :: rest).find? (fun s => s.id == target) = none := by
      rw [List.find?_eq_none]
      intro s hs
      rw [Bool.not_eq_true]
      exact beq_false_of_ne (h s hs)
    simp only [resolveTarget, hfind, Option.getD_none]

/-- Witness for the amended C7: student 3 is not enrolled so their attempt
fails; and resolving id 99 against the one-session list yields session 1. -/
theorem unresolved_session_falls_back_witness :
    recordAttendance exDb 3 (some 99) Method.qr exData 33600000 =
      (exDb, CheckInOutcome.noActiveSessions) ∧
    resolveTarget [exSession] (some 99) = some exSession :=
  ⟨(unresolved_session_falls_back exDb 3 (some 99) Method.qr exData 33600000
      exSession [] 99).1 (by decide),
   (unresolved_session_falls_back exDb 3 (some 99) Method.qr exData 33600000
      exSession [] 99).2 (by decide)⟩

/-- C9: every attendance aggregation whose denominator is zero in its own
scope yields 0, not an error: the admin overall rate on an empty record set,
the student dashboard rate for a student with no records (even when other
students have records in the store), and the instructor average when none of
that instructor's sessions has a record (even when other sessions do). -/
theorem zero_denominator_rates_zero (db : DB) (studentId instructorId : ℕ)
    (h1 : db.attendanceRecords.filter (fun r => r.studentId == studentId) = [])
    (h2 : ∀ s ∈ db.classSessions, s.instructorId = instructorId →
      sessionRecords db s.id = []) :
    overallAttendanceRate [] = 0 ∧
    studentAttendanceRate db.attendanceRecords studentId = 0 ∧
    avgAttendance db instructorId = 0 := by
  refine ⟨rfl, ?_, ?_⟩
  · simp only [studentAttendanceRate]
    rw [h1]
    rfl
  · simp only [avgAttendance]
    rw [foldl_fixed_of_mem (avgStep db)
      (db.classSessions.filter (fun s => s.instructorId == instructorId)) ?_ (0, 0)]
    · rfl
    · intro s hs c
      have hs' := List.mem_filter.mp hs
      have hid : s.instructorId = instructorId := by
        have hb := hs'.2
        exact beq_iff_eq.mp hb
      simp only [avgStep]
      rw [h2 s hs'.1 hid]
      rfl

/-- Witness for C9 at a nonempty fixture store: student 2 has a record, yet
student 3's rate and instructor 7's average are both 0 because their own
scopes hold no records. -/
theorem zero_denominator_rates_zero_witness :
    exDb9.attendanceRecords ≠ [] ∧
    overallAttendanceRate [] = 0 ∧
    studentAttendanceRate exDb9.attendanceRecords 3 = 0 ∧
    avgAttendance exDb9 7 = 0 :=
  ⟨by decide,
   (zero_denominator_rates_zero exDb9 3 7 (by decide) (by decide)).1,
   (zero_denominator_rates_zero exDb9 3 7 (by decide) (by decide)).2.1,
   (zero_denominator_rates_zero exDb9 3 7 (by decide) (by decide)).2.2⟩

/-- C10: the dashboard flag is true exactly when now is between 30 minutes
before and 15 minutes after the session's combined date+start instant (both
bounds inclusive); it depends on the session only through that start
instant, so the end time and any grace/late settings play no role. -/
theorem canCheckIn_iff_window (s s' : Session) (now : ℕ) :
    (canCheckIn s now = true ↔
      ((startInstant s : ℤ) - 30 * 60000 ≤ (now : ℤ) ∧
        (now : ℤ) ≤ (startInstant s : ℤ) + 15 * 60000)) ∧
    (startInstant s = startInstant s' → canCheckIn s now = canCheckIn s' now) := by
  constructor
  · simp only [canCheckIn, Bool.and_eq_true, decide_eq_true_eq]
    constructor
    · rintro ⟨h1, h2⟩
      constructor <;> omega
    · rintro ⟨h1, h2⟩
      constructor <;> omega
  · intro h
    simp only [canCheckIn, h]

/-- Witness for C10: at 09:20 the flag for the fixture session is inside the
window, and the session with a different end time gets the same flag. -/
theorem canCheckIn_iff_window_witness :
    (canCheckIn exSession 33600000 = true ↔
      ((startInstant exSession : ℤ) - 30 * 60000 ≤ ((33600000 : ℕ) : ℤ) ∧
        ((33600000 : ℕ) : ℤ) ≤ (startInstant exSession : ℤ) + 15 * 60000)) ∧
    canCheckIn exSession 33600000 = canCheckIn exSessionAltEnd 33600000 :=
  ⟨(canCheckIn_iff_window exSession exSessionAltEnd 33600000).1,
   (canCheckIn_iff_window exSession exSessionAltEnd 33600000).2 (by decide)⟩
